import Mathlib

/-!
Verification of the kernel session manager in src/src/node/index.js: option
validation (assertValidObject), session creation and teardown
(onCreateKernelInstance, onKillKernelInstance, getKernelInstanceById), the
per-session operations, the autocomplete timeout, and the display-data
transform (displayDataTransform, replacePropertyWithTemporaryFile).

The JavaScript is embedded shallowly: the mutable module-level table
`kernelClients` becomes an explicit association list threaded through each
operation, bluebird promises become an explicit settlement model (a promise
either settles at some virtual time or never settles), and the external
collaborators that are not part of the repository snapshot
(files.saveToTemporaryFile, the plot server) are modelled from the spec where
noted.
-/

/-- JS runtime error carrying its message, as produced by `throw new Error(msg)`. -/
inductive JsError
  | error (message : String)
deriving DecidableEq

/-! ## Base64 decoding (model of the Node buffer base64 constructor) -/

/-- One 6-bit value of the base64 alphabet; `none` for characters outside the
alphabet (the Node base64 decoder is lenient and skips such characters,
including the `=` padding). -/
def base64Val (c : Char) : Option Nat :=
  if 65 ≤ c.toNat ∧ c.toNat ≤ 90 then some (c.toNat - 65)
  else if 97 ≤ c.toNat ∧ c.toNat ≤ 122 then some (c.toNat - 71)
  else if 48 ≤ c.toNat ∧ c.toNat ≤ 57 then some (c.toNat + 4)
  else if c = '+' then some 62
  else if c = '/' then some 63
  else none

/-- Pack the 6-bit groups into bytes, three bytes per four input values; a
trailing group of two or three values yields one or two bytes, a lone
trailing value is dropped (matching the Node output length, three quarters
of the count of valid characters). -/
def base64Groups : List Nat → List Nat
  | a :: b :: c :: d :: rest =>
      (a * 4 + b / 16) :: ((b % 16) * 16 + c / 4) :: ((c % 4) * 64 + d) :: base64Groups rest
  | [a, b] => [a * 4 + b / 16]
  | [a, b, c] => [a * 4 + b / 16, (b % 16) * 16 + c / 4]
  | _ => []

/-- Model of `new Buffer(s, base64)`: decode a base64 string to raw bytes. -/
def base64Decode (s : String) : List Nat :=
  base64Groups (s.data.filterMap base64Val)

/-! ## Generic association-list lookup (JS object / Map access) -/

/-- First-match lookup in an association list; `none` models a JS `undefined`
property access or a `Map` miss. -/
def alookup {α β : Type} [DecidableEq α] : List (α × β) → α → Option β
  | [], _ => none
  | kv :: rest, k => if kv.1 = k then some kv.2 else alookup rest k

/-- Remove every entry with the given key; models `delete table[id]`. -/
def removeKey {α β : Type} [DecidableEq α] : List (α × β) → α → List (α × β)
  | [], _ => []
  | kv :: rest, k => if kv.1 = k then removeKey rest k else kv :: removeKey rest k

/-! ## Display-data payload fields -/

/-- A value held by a `content.data` payload field: either a transport string
or a Node `Buffer` of raw bytes (after the base64 decode step). -/
inductive FieldVal
  | str (s : String)
  | buf (bytes : List Nat)
deriving DecidableEq

/-- JS truthiness of a payload field value: the empty string is falsy, any
other string is truthy, and a `Buffer` object is always truthy. -/
def fieldTruthyVal : FieldVal → Bool
  | .str s => if s = "" then false else true
  | .buf _ => true

/-- JS truthiness of `data[property]`: an absent property (`undefined`) is falsy. -/
def fieldTruthy : Option FieldVal → Bool
  | none => false
  | some v => fieldTruthyVal v

/-- Bytes written when a field value is persisted to a file: a `Buffer` is
written verbatim; a string is written in its character encoding (modelled
per-character). -/
def fieldBytes : FieldVal → List Nat
  | .str s => s.data.map Char.toNat
  | .buf b => b

/-- Model of `new Buffer(x, base64)` applied to a field value: a string is
base64-decoded into bytes; a `Buffer` argument is copied verbatim (the
encoding argument is ignored by Node in that case). -/
def bufferFromBase64 : FieldVal → FieldVal
  | .str s => .buf (base64Decode s)
  | .buf b => .buf b

/-! ## Plot server and temporary files

The plot server (`services/plot-server`) and `files.saveToTemporaryFile`
(`services/files`) are repository code that is not part of the provided
source snapshot; they are modelled from the spec where marked. -/

/-- The artifact-store state: a counter generating fresh temporary file names,
the persisted temporary files (path to bytes), and the plot server
`urls` route table (route key to file path, cf. `onSavePlot`). -/
structure PlotState where
  nextTempId : Nat
  tempFiles : List (String × List Nat)
  urls : List (String × String)
deriving DecidableEq

/-- Path of the n-th temporary file with the given extension. -/
def mkTempPath (n : Nat) (ext : String) : String :=
  "/tmp/" ++ toString n ++ ext

/-- Modelled from the spec: `files.saveToTemporaryFile(extension, data)`
(`services/files`, not in the source snapshot) persists the content to a new
temporary file with the given extension and resolves with the file path. -/
def saveToTemporaryFile (ps : PlotState) (ext : String) (content : FieldVal) :
    String × PlotState :=
  let filepath := mkTempPath ps.nextTempId ext
  (filepath,
    { nextTempId := ps.nextTempId + 1
      tempFiles := (filepath, fieldBytes content) :: ps.tempFiles
      urls := ps.urls })

/-- Whether a route key is already registered in the route table. -/
def keyUsed : List (String × String) → String → Bool
  | [], _ => false
  | e :: rest, k => if e.1 = k then true else keyUsed rest k

/-- Fuel-bounded key re-derivation: append a dash until the key is unused. -/
def deriveRouteKeyAux (urls : List (String × String)) : Nat → String → String
  | 0, k => k
  | n + 1, k => if keyUsed urls k then deriveRouteKeyAux urls n (k ++ "-") else k

/-- Enough fuel to exceed the length of every registered key. -/
def routeKeyFuel (urls : List (String × String)) : Nat :=
  (urls.map (fun e => e.1.length)).foldr max 0 + 1

/-- Modelled from the spec: route-key collision handling of the plot server —
collisions are rejected by re-deriving a new key, never by overwriting; the
re-derivation is modelled by appending a dash until the key is unused. -/
def deriveRouteKey (urls : List (String × String)) (k : String) : String :=
  deriveRouteKeyAux urls (routeKeyFuel urls) k

/-- Modelled from the spec: `plotServerInstance.addRouteToFile(filepath, suggestedKey)`
(`services/plot-server`, not in the source snapshot) registers a mapping from
a globally-unique route key to the file path and returns the route key. -/
def addRouteToFile (ps : PlotState) (filepath : String) (suggested : String) :
    String × PlotState :=
  let route := deriveRouteKey ps.urls suggested
  (route,
    { nextTempId := ps.nextTempId
      tempFiles := ps.tempFiles
      urls := (route, filepath) :: ps.urls })

/-- Model of `_.last(filepath.split(path.sep))` with the POSIX separator. -/
def lastComponentAux : List Char → List Char → List Char
  | [], acc => acc
  | c :: rest, acc => if c = '/' then lastComponentAux rest [] else lastComponentAux rest (acc ++ [c])

/-- Last path component of a file path. -/
def lastPathComponent (filepath : String) : String :=
  ⟨lastComponentAux filepath.data []⟩

/-- Embedding of `replacePropertyWithTemporaryFile(extension, data, property)`:
if `data[property]` is truthy, persist it to a temporary file, register a
route for the file and replace the property value with the route key;
otherwise leave the property untouched. The property is passed by value: the
caller stores the returned value back into the event. -/
def replacePropertyWithTemporaryFile (ext : String) (ps : PlotState) (v : Option FieldVal) :
    Option FieldVal × PlotState :=
  match v with
  | none => (none, ps)
  | some fv =>
    if fieldTruthyVal fv then
      let saved := saveToTemporaryFile ps ext fv
      let name := lastPathComponent saved.1
      let added := addRouteToFile saved.2 saved.1 ("/" ++ name)
      (some (.str added.1), added.2)
    else (some fv, ps)

/-! ## Kernel events -/

/-- The `content.data` object of a display-data event: the three payload
fields recognized by the transform, plus the fields it never touches. -/
structure EventData where
  imagePng : Option FieldVal
  textHtml : Option FieldVal
  imageSvg : Option FieldVal
  rest : List (String × FieldVal)
deriving DecidableEq

/-- The `content` object of a kernel event. -/
structure EventContent where
  data : Option EventData
deriving DecidableEq

/-- The `result` object of a kernel event. -/
structure EventResult where
  msg_type : Option String
  content : Option EventContent
deriving DecidableEq

/-- A kernel event as received by `displayDataTransform`. -/
structure KernelEvent where
  result : Option EventResult
deriving DecidableEq

/-- Model of the lodash get of the path result.msg_type on the event. -/
def eventMsgType (event : KernelEvent) : Option String :=
  event.result.bind (fun r => r.msg_type)

/-- Model of the lodash get of the path result.content.data on the event. -/
def eventData (event : KernelEvent) : Option EventData :=
  event.result.bind (fun r => r.content.bind (fun c => c.data))

/-- Store a new `data` object back into the event (the JS code mutates the
`data` object in place); identity when the path does not exist. -/
def setEventData (event : KernelEvent) (d : EventData) : KernelEvent :=
  match event.result with
  | none => event
  | some r =>
    match r.content with
    | none => event
    | some _ => ⟨some ⟨r.msg_type, some ⟨some d⟩⟩⟩

/-- The `image/png` field of the event, if any. -/
def pngField (event : KernelEvent) : Option FieldVal :=
  (eventData event).bind (fun d => d.imagePng)

/-- The `text/html` field of the event, if any. -/
def htmlField (event : KernelEvent) : Option FieldVal :=
  (eventData event).bind (fun d => d.textHtml)

/-- The `image/svg` field of the event, if any. -/
def svgField (event : KernelEvent) : Option FieldVal :=
  (eventData event).bind (fun d => d.imageSvg)

/-- The base64 decode step of `displayDataTransform`: when the image/png
field is truthy it is replaced by its buffer decoded from base64. -/
def decodePngStep (data : EventData) : EventData :=
  if fieldTruthy data.imagePng then
    ⟨data.imagePng.map bufferFromBase64, data.textHtml, data.imageSvg, data.rest⟩
  else data

/-- Body of the display-data branch of `displayDataTransform`: first the
base64 decode of a truthy `image/png` field, then the three field
replacements. The three replacements run concurrently in the JS code but
allocate their temporary files in creation order (html, png, svg) and touch
disjoint fields, so they are modelled by sequential state passing. -/
def transformData (ps : PlotState) (event : KernelEvent) (data : EventData) :
    KernelEvent × PlotState :=
  let data1 := decodePngStep data
  let htmlStep := replacePropertyWithTemporaryFile ".html" ps data1.textHtml
  let pngStep := replacePropertyWithTemporaryFile ".png" htmlStep.2 data1.imagePng
  let svgStep := replacePropertyWithTemporaryFile ".svg" pngStep.2 data1.imageSvg
  (setEventData event ⟨pngStep.1, htmlStep.1, svgStep.1, data1.rest⟩, svgStep.2)

/-- Embedding of `displayDataTransform(event)`: rewrite the recognized payload
fields of a display-data event to route keys; otherwise resolve with the
event unchanged. -/
def displayDataTransform (ps : PlotState) (event : KernelEvent) :
    KernelEvent × PlotState :=
  match eventData event with
  | none => (event, ps)
  | some data =>
    if eventMsgType event = some "display_data" then
      transformData ps event data
    else (event, ps)

/-! ## Option validation (`assertValidObject`) -/

/-- A JS value appearing as an option-object property. -/
inductive JsValue
  | str (s : String)
  | num (n : Int)
  | boolv (b : Bool)
  | plainObj
  | nullv
deriving DecidableEq

/-- A JS options object: property names to values. -/
abbrev JsObject := List (String × JsValue)

/-- Model of `_.isString`. -/
def isStringV : JsValue → Bool
  | .str _ => true
  | _ => false

/-- Model of `_.isPlainObject`. -/
def isPlainObjectV : JsValue → Bool
  | .plainObj => true
  | _ => false

/-- Model of `_.isNumber`. -/
def isNumberV : JsValue → Bool
  | .num _ => true
  | _ => false

/-- Model of `_.isBoolean`. -/
def isBooleanV : JsValue → Bool
  | .boolv _ => true
  | _ => false

/-- The `validators` table of `assertValidObject`. -/
def validatorFor (t : String) : Option (JsValue → Bool) :=
  if t = "string" then some isStringV
  else if t = "object" then some isPlainObjectV
  else if t = "number" then some isNumberV
  else if t = "boolean" then some isBooleanV
  else none

/-- JS string rendering of a value, as appended to the but-got message. -/
def jsDisplay : JsValue → String
  | .str s => s
  | .num n => toString n
  | .boolv true => "true"
  | .boolv false => "false"
  | .plainObj => "[object Object]"
  | .nullv => "null"

/-- A property definition object as passed to `assertValidObject`. The
validator reads the `type` and `required` properties; the call sites in this
file pass `isRequired` instead of `required`, so that property is carried
here as well but is never read by the validation logic — exactly as in the
source. -/
structure DefObj where
  type : Option String
  required : Option Bool
  isRequired : Option Bool
deriving DecidableEq

/-- A property definition: a plain object, a bare type-name string, or any
other value (which `assertValidObject` rejects as a bad definition). -/
inductive OptionDefinition
  | objDef (d : DefObj)
  | strDef (s : String)
  | otherDef
deriving DecidableEq

/-- Render the expected type for an error message (`undefined` when absent). -/
def typeName : Option String → String
  | some t => t
  | none => "undefined"

/-- The per-property checks of `assertValidObject` once `expectedType` and
`isRequired` are extracted: validator existence, the required check (only
reachable when the value is `undefined`), and the type check (only reachable
when the value is defined). -/
def checkTyped (obj : JsObject) (key : String) (expectedType : Option String)
    (isReq : Bool) : Except JsError Unit :=
  match expectedType.bind validatorFor with
  | none => .error (.error ("Missing validator type " ++ typeName expectedType ++
      " for property " ++ key))
  | some valid =>
    match alookup obj key with
    | none =>
      if isReq then .error (.error ("Missing required property " ++ key)) else .ok ()
    | some v =>
      if valid v then .ok ()
      else .error (.error ("Invalid property " ++ key ++ ": expected " ++
        typeName expectedType ++ " but got " ++ jsDisplay v))

/-- One iteration of the `_.each(validOptions, ...)` loop: for an object
definition the code reads `definition.type` and `definition.required` (note:
`required`, not `isRequired`); for a string definition the string is the
expected type and the property is optional. -/
def checkOption (obj : JsObject) (key : String) (definition : OptionDefinition) :
    Except JsError Unit :=
  match definition with
  | .objDef d => checkTyped obj key d.type (d.required.getD false)
  | .strDef s => checkTyped obj key (some s) false
  | .otherDef => .error (.error ("Bad definition of object type assertion for " ++ key))

/-- Whether a property name is among the valid option keys. -/
def keyAllowed : List (String × OptionDefinition) → String → Bool
  | [], _ => false
  | vo :: rest, k => if vo.1 = k then true else keyAllowed rest k

/-- Model of `_.omit(obj, Object.keys(validOptions))`: the properties of the
object whose keys are not valid option keys. -/
def bannedProperties (validOptions : List (String × OptionDefinition)) : JsObject → JsObject
  | [] => []
  | kv :: rest =>
    if keyAllowed validOptions kv.1 then bannedProperties validOptions rest
    else kv :: bannedProperties validOptions rest

/-- The error message naming the disallowed properties (JS array-to-string
joins the keys with commas). -/
def bannedMessage (validOptions : List (String × OptionDefinition)) (obj : JsObject) : String :=
  "Properties " ++
    String.intercalate "," ((bannedProperties validOptions obj).map (fun kv => kv.1)) ++
    " are not allowed"

/-- Embedding of `assertValidObject(obj, validOptions)`: reject disallowed
properties first, then run the per-property checks in order; the first throw
wins. -/
def assertValidObject (obj : JsObject) (validOptions : List (String × OptionDefinition)) :
    Except JsError Unit :=
  if (bannedProperties validOptions obj).length > 0 then
    .error (.error (bannedMessage validOptions obj))
  else
    validOptions.foldl (fun acc kv => acc.bind (fun _ => checkOption obj kv.1 kv.2)) (.ok ())

/-- The validation schema passed by both `onCheckKernel` and
`onCreateKernelInstance`: note the call sites set `isRequired`, while the
validator reads `required` — carried faithfully. Fields of `DefObj` in
order: `type`, `required`, `isRequired`. -/
def kernelOptionsValidation : List (String × OptionDefinition) :=
  [("cmd", .objDef ⟨some "string", none, some true⟩),
   ("cwd", .objDef ⟨some "string", none, none⟩)]

/-! ## Kernel clients and the session table -/

/-- The capability set of a kernel client (`kernels/python/client` is outside
the source snapshot; the session manager treats it as a black box). Each
reply is `some (t, r)` when the client settles the request after `t`
milliseconds with outcome `r`, and `none` when it never responds. -/
structure Client where
  killResult : Except JsError Unit
  executeReply : String → Option (Nat × Except JsError JsValue)
  executeHiddenReply : String → String → Option (Nat × Except JsError JsValue)
  autoCompleteReply : String → Nat → Option (Nat × Except JsError JsValue)
  isCompleteReply : String → Option (Nat × Except JsError JsValue)
  inspectionReply : String → Nat → Option (Nat × Except JsError JsValue)
  statusReply : Option (Nat × Except JsError JsValue)
  interruptReply : Option (Nat × Except JsError JsValue)
  evalReply : String → Option (Nat × Except JsError JsValue)

/-- State of the readiness promise stored in the session table. The promise
executor in `onCreateKernelInstance` receives only a `resolveClient`
callback; the `catch` handler of a failed construction deletes the table
entry but never rejects, so the promise either resolves with the client once
the `ready` event fires, or stays pending forever. A pending promise carries
its eventual fate: `some (t, c)` when the `ready` event will fire at time
`t` with client `c`, `none` when construction fails and the promise never
settles. -/
inductive PromiseState
  | pending (eventual : Option (Nat × Client))
  | resolved (c : Client)

/-- Await the readiness promise: the client it delivers and when, or `none`
when it never settles. -/
def awaitTimed : PromiseState → Option (Nat × Client)
  | .pending eventual => eventual
  | .resolved c => some (0, c)

/-- How the readiness promise settles: the code only ever resolves it with a
client and never rejects it, so the settlement is a success value or nothing. -/
def settles (p : PromiseState) : Option (Except JsError Client) :=
  (awaitTimed p).map (fun tc => .ok tc.2)

/-- The outcome of a promise chain as observed by a caller: settled at a
virtual time with a value or an error, or never settled. -/
inductive TimedResult (α : Type)
  | settled (t : Nat) (r : Except JsError α)
  | never

/-- Chain `promise.then(client => reply)` as the caller observes it: wait for
the readiness promise, then for the reply of the client. -/
def clientChain (p : PromiseState) (reply : Client → Option (Nat × Except JsError JsValue)) :
    TimedResult JsValue :=
  match awaitTimed p with
  | none => .never
  | some (tr, c) =>
    match reply c with
    | none => .never
    | some (ta, r) => .settled (tr + ta) r

/-- Model of the bluebird timeout combinator: pass through a settlement that
beats the deadline, otherwise reject with the timeout message at the
deadline. -/
def bluebirdTimeout {α : Type} (limit : Nat) (msg : String) :
    TimedResult α → TimedResult α
  | .settled t r => if t < limit then .settled t r else .settled limit (.error (.error msg))
  | .never => .settled limit (.error (.error msg))

/-- The module state: the `kernelClients` table and the id generator (`cuid()`
is modelled by a counter producing ids never used before). -/
structure ManagerState where
  kernelClients : List (Nat × PromiseState)
  nextCuid : Nat

/-- The state before any session is created. -/
def emptyManagerState : ManagerState :=
  ⟨[], 0⟩

/-- The timeout constant `autoCompleteTimeout = 5` from the source. -/
def autoCompleteTimeout : Nat := 5

/-- The constant `second = 1000` from the source. -/
def second : Nat := 1000

/-- The eventual fate of an asynchronous client construction, an input of the
model standing for the behaviour of `kernelsPythonClient.create`: the
subprocess either becomes ready at some time with a client, or construction
rejects. -/
inductive ConstructionFate
  | becomesReady (readyTime : Nat) (c : Client)
  | fails (e : JsError)

/-- The readiness information a pending promise ends up carrying for a fate. -/
def fateEventual : ConstructionFate → Option (Nat × Client)
  | .becomesReady t c => some (t, c)
  | .fails _ => none

/-- Marker that `kernelsPythonClient.check(options)` was invoked (a short-lived
probe subprocess is spawned); reaching it means validation passed. -/
inductive CheckAction
  | invoked (options : JsObject)
deriving DecidableEq

/-- Embedding of `onCheckKernel(options)`: validate, then hand the options to
the interpreter probe. -/
def onCheckKernel (options : JsObject) : Except JsError CheckAction :=
  match assertValidObject options kernelOptionsValidation with
  | .error e => .error e
  | .ok _ => .ok (.invoked options)

/-- Embedding of the synchronous phase of `onCreateKernelInstance(options)`:
validate, generate `instanceId = cuid()`, store the (still pending)
readiness promise in `kernelClients[instanceId]`, and resolve with the id.
The asynchronous construction outcome is an input (see `ConstructionFate`);
an error leaves the table untouched. -/
def onCreateKernelInstance (options : JsObject) (fate : ConstructionFate)
    (st : ManagerState) : Except JsError Nat × ManagerState :=
  match assertValidObject options kernelOptionsValidation with
  | .error e => (.error e, st)
  | .ok _ =>
    let instanceId := st.nextCuid
    (.ok instanceId,
      ⟨(instanceId, PromiseState.pending (fateEventual fate)) :: st.kernelClients,
       st.nextCuid + 1⟩)

/-- The `catch` continuation of a failed client construction: `delete
kernelClients[instanceId]` (the promise itself is left pending). -/
def constructionFailureStep (id : Nat) (st : ManagerState) : ManagerState :=
  ⟨removeKey st.kernelClients id, st.nextCuid⟩

/-- The `close` event handler registered on each client: `delete
kernelClients[instanceId]`. -/
def onClientCloseEvent (id : Nat) (st : ManagerState) : ManagerState :=
  ⟨removeKey st.kernelClients id, st.nextCuid⟩

/-- The outcome of the promise chain returned by `onKillKernelInstance`. -/
inductive KillOutcome
  | succeeded
  | failed (e : JsError)
  | waitsForever

/-- Await the readiness promise, then `client.kill()`. -/
def killOutcomeOf (p : PromiseState) : KillOutcome :=
  match awaitTimed p with
  | none => .waitsForever
  | some tc =>
    match tc.2.killResult with
    | .ok _ => .succeeded
    | .error e => .failed e

/-- Embedding of `onKillKernelInstance(id)`: throw when the id is absent from
the table; otherwise return the promise chained with `client.kill()`. The
function does not modify the table. -/
def onKillKernelInstance (id : Nat) (st : ManagerState) :
    Except JsError KillOutcome × ManagerState :=
  match alookup st.kernelClients id with
  | none => (.error (.error "Kernel with that id does not exist."), st)
  | some p => (.ok (killOutcomeOf p), st)

/-- The error thrown by `getKernelInstanceById` for an unknown id. -/
def notFoundError (id : Nat) : JsError :=
  .error ("Kernel with this id does not exist: " ++ toString id)

/-- Embedding of `getKernelInstanceById(id)`: the stored readiness promise, or
a synchronous throw when the id is unknown. -/
def getKernelInstanceById (id : Nat) (st : ManagerState) : Except JsError PromiseState :=
  match alookup st.kernelClients id with
  | none => .error (notFoundError id)
  | some p => .ok p

/-- The options object of the per-session operations (`options.instanceId`). -/
structure ExecOptions where
  instanceId : Nat

/-- Embedding of `onExecuteWithKernel(options, text)`: reject empty text
synchronously, then resolve the session and forward to `client.execute`. -/
def onExecuteWithKernel (options : ExecOptions) (text : String) (st : ManagerState) :
    Except JsError (TimedResult JsValue) × ManagerState :=
  if text = "" then (.error (.error "Missing text to execute"), st)
  else
    match getKernelInstanceById options.instanceId st with
    | .error e => (.error e, st)
    | .ok p => (.ok (clientChain p (fun c => c.executeReply text)), st)

/-- Embedding of `onExecuteHidden(options, code, resolveEvent)`. -/
def onExecuteHidden (options : ExecOptions) (code resolveEvent : String) (st : ManagerState) :
    Except JsError (TimedResult JsValue) × ManagerState :=
  match getKernelInstanceById options.instanceId st with
  | .error e => (.error e, st)
  | .ok p => (.ok (clientChain p (fun c => c.executeHiddenReply code resolveEvent)), st)

/-- Embedding of `onGetAutoComplete(options, text, cursorPos)`: resolve the
session, forward to `client.getAutoComplete`, and bound the whole chain by
`autoCompleteTimeout * second` milliseconds. -/
def onGetAutoComplete (options : ExecOptions) (text : String) (cursorPos : Nat)
    (st : ManagerState) : Except JsError (TimedResult JsValue) × ManagerState :=
  match getKernelInstanceById options.instanceId st with
  | .error e => (.error e, st)
  | .ok p =>
    (.ok (bluebirdTimeout (autoCompleteTimeout * second)
      ("AutoComplete failed to finish in " ++ toString autoCompleteTimeout ++ " seconds")
      (clientChain p (fun c => c.autoCompleteReply text cursorPos))), st)

/-- Embedding of `onIsComplete(options, text)`. -/
def onIsComplete (options : ExecOptions) (text : String) (st : ManagerState) :
    Except JsError (TimedResult JsValue) × ManagerState :=
  match getKernelInstanceById options.instanceId st with
  | .error e => (.error e, st)
  | .ok p => (.ok (clientChain p (fun c => c.isCompleteReply text)), st)

/-- Embedding of `onGetInspection(options, text, cursorPos)`. -/
def onGetInspection (options : ExecOptions) (text : String) (cursorPos : Nat)
    (st : ManagerState) : Except JsError (TimedResult JsValue) × ManagerState :=
  match getKernelInstanceById options.instanceId st with
  | .error e => (.error e, st)
  | .ok p => (.ok (clientChain p (fun c => c.inspectionReply text cursorPos)), st)

/-- Embedding of `onGetStatus(options)`. -/
def onGetStatus (options : ExecOptions) (st : ManagerState) :
    Except JsError (TimedResult JsValue) × ManagerState :=
  match getKernelInstanceById options.instanceId st with
  | .error e => (.error e, st)
  | .ok p => (.ok (clientChain p (fun c => c.statusReply)), st)

/-- Embedding of `onInterrupt(options)`. -/
def onInterrupt (options : ExecOptions) (st : ManagerState) :
    Except JsError (TimedResult JsValue) × ManagerState :=
  match getKernelInstanceById options.instanceId st with
  | .error e => (.error e, st)
  | .ok p => (.ok (clientChain p (fun c => c.interruptReply)), st)

/-- Embedding of `onEval(options, text)` (forwards to `client.getEval`). -/
def onEval (options : ExecOptions) (text : String) (st : ManagerState) :
    Except JsError (TimedResult JsValue) × ManagerState :=
  match getKernelInstanceById options.instanceId st with
  | .error e => (.error e, st)
  | .ok p => (.ok (clientChain p (fun c => c.evalReply text)), st)

/-- All ids already in the table are below the id generator: every reachable
state satisfies this, and it makes the next generated id fresh. -/
def FreshTable (st : ManagerState) : Prop :=
  ∀ kv ∈ st.kernelClients, kv.1 < st.nextCuid

/-! ## Concrete clients, states and events for witnesses and counterexamples -/

/-- A client that answers every request immediately and whose kill succeeds. -/
def trivialClient : Client :=
  ⟨.ok (),
   fun _ => some (0, .ok .nullv),
   fun _ _ => some (0, .ok .nullv),
   fun _ _ => some (0, .ok .nullv),
   fun _ => some (0, .ok .nullv),
   fun _ _ => some (0, .ok .nullv),
   some (0, .ok .nullv),
   some (0, .ok .nullv),
   fun _ => some (0, .ok .nullv)⟩

/-- A client that never answers autocomplete requests. -/
def neverAutoCompleteClient : Client :=
  ⟨.ok (),
   fun _ => some (0, .ok .nullv),
   fun _ _ => some (0, .ok .nullv),
   fun _ _ => none,
   fun _ => some (0, .ok .nullv),
   fun _ _ => some (0, .ok .nullv),
   some (0, .ok .nullv),
   some (0, .ok .nullv),
   fun _ => some (0, .ok .nullv)⟩

/-- A client whose `kill()` rejects. -/
def failingKillClient : Client :=
  ⟨.error (.error "kill failed"),
   fun _ => some (0, .ok .nullv),
   fun _ _ => some (0, .ok .nullv),
   fun _ _ => some (0, .ok .nullv),
   fun _ => some (0, .ok .nullv),
   fun _ _ => some (0, .ok .nullv),
   some (0, .ok .nullv),
   some (0, .ok .nullv),
   fun _ => some (0, .ok .nullv)⟩

/-- A table holding one ready session (id 0) whose kill rejects. -/
def failingKillState : ManagerState :=
  ⟨[(0, .resolved failingKillClient)], 1⟩

/-- A table holding one ready session (id 0) that never answers autocomplete. -/
def neverAutoCompleteState : ManagerState :=
  ⟨[(0, .resolved neverAutoCompleteClient)], 1⟩

/-- The table right after a creation whose construction will fail. -/
def createdFailingState : ManagerState :=
  ⟨[(0, .pending none)], 1⟩

/-- The empty artifact-store state. -/
def emptyPlotState : PlotState :=
  ⟨0, [], []⟩

/-- A display-data event whose `image/png` field holds base64 text (`"AQID"`
decodes to the bytes 1, 2, 3). -/
def pngDataEvent : KernelEvent :=
  ⟨some ⟨some "display_data", some ⟨some ⟨some (.str "AQID"), none, none, []⟩⟩⟩⟩

/-- A display-data event whose `image/png` field already holds the route key
`"/0.png"`, together with the artifact state that registered that route. -/
def routedPngEvent : KernelEvent :=
  ⟨some ⟨some "display_data", some ⟨some ⟨some (.str "/0.png"), none, none, []⟩⟩⟩⟩

/-- The artifact state after `pngDataEvent` was transformed once. -/
def routedPlotState : PlotState :=
  ⟨1, [("/tmp/0.png", [1, 2, 3])], [("/0.png", "/tmp/0.png")]⟩

/-- An event that is not a display-data event. -/
def executeResultEvent : KernelEvent :=
  ⟨some ⟨some "execute_result", some ⟨some ⟨none, none, none, [("text/plain", .str "2")]⟩⟩⟩⟩

/-- A sample creation options object accepted by the validation. -/
def pythonOptions : JsObject :=
  [("cmd", .str "python3")]

/-- A creation options object carrying a property other than cmd and cwd. -/
def extraPropOptions : JsObject :=
  [("cmd", .str "python3"), ("env", .plainObj)]

/-! ## Named intermediate states of a png transform

Abbreviations for the states `transformData` passes through when the
`image/png` field is a non-empty string, used to state the transform
theorems. -/

/-- The artifact state after the `text/html` replacement step. -/
def htmlStepState (ps : PlotState) (d : EventData) : PlotState :=
  (replacePropertyWithTemporaryFile ".html" ps (decodePngStep d).textHtml).2

/-- The temporary file path the png replacement step allocates. -/
def pngFilePath (ps : PlotState) (d : EventData) : String :=
  mkTempPath (htmlStepState ps d).nextTempId ".png"

/-- The route key the png replacement step registers. -/
def pngRouteKey (ps : PlotState) (d : EventData) : String :=
  deriveRouteKey (htmlStepState ps d).urls ("/" ++ lastPathComponent (pngFilePath ps d))

/-- The artifact state after the png replacement step persisted the decoded
bytes of the original string field `s`. -/
def pngSavedState (ps : PlotState) (d : EventData) (s : String) : PlotState :=
  ⟨(htmlStepState ps d).nextTempId + 1,
   (pngFilePath ps d, base64Decode s) :: (htmlStepState ps d).tempFiles,
   (pngRouteKey ps d, pngFilePath ps d) :: (htmlStepState ps d).urls⟩

/-! ## Helper lemmas -/

/-- Deleting a key removes it from lookup. -/
theorem alookup_removeKey_self {α β : Type} [DecidableEq α] (l : List (α × β)) (k : α) :
    alookup (removeKey l k) k = none := by
  induction l with
  | nil => rfl
  | cons kv rest ih =>
    by_cases h : kv.1 = k
    · simp [removeKey, h, ih]
    · simp [removeKey, alookup, h, ih]

/-- A key that resolves is a used key. -/
theorem keyUsed_of_alookup (l : List (String × String)) (k fp : String)
    (h : alookup l k = some fp) : keyUsed l k = true := by
  induction l with
  | nil => simp [alookup] at h
  | cons e rest ih =>
    by_cases he : e.1 = k
    · simp [keyUsed, he]
    · simp only [alookup, if_neg he] at h
      simp [keyUsed, he, ih h]

/-- A key longer than every registered key is unused. -/
theorem keyUsed_false_of_short (l : List (String × String)) (k : String)
    (h : ∀ e ∈ l, e.1.length < k.length) : keyUsed l k = false := by
  induction l with
  | nil => rfl
  | cons e rest ih =>
    have he : e.1 ≠ k := by
      intro hek
      have hl := h e (List.mem_cons_self e rest)
      rw [hek] at hl
      exact lt_irrefl _ hl
    simp only [keyUsed, if_neg he]
    exact ih (fun x hx => h x (List.mem_cons_of_mem e hx))

/-- With enough fuel relative to the registered key lengths, the re-derived
key is unused. -/
theorem deriveRouteKeyAux_fresh (urls : List (String × String)) :
    ∀ (n : Nat) (k : String), (∀ e ∈ urls, e.1.length < k.length + n) →
      keyUsed urls (deriveRouteKeyAux urls n k) = false := by
  intro n
  induction n with
  | zero =>
    intro k h
    exact keyUsed_false_of_short urls k (by simpa using h)
  | succ m ih =>
    intro k h
    by_cases hk : keyUsed urls k = true
    · simp only [deriveRouteKeyAux, hk, if_true]
      refine ih (k ++ "-") (fun e he => ?_)
      have h1 := h e he
      have h2 : (k ++ "-").length = k.length + 1 := by
        rw [String.length_append]
        rfl
      omega
    · have hk2 : keyUsed urls k = false := by simpa using hk
      simp only [deriveRouteKeyAux, hk2, Bool.false_eq_true, if_false]

/-- Every element is bounded by the running maximum. -/
theorem mem_le_foldr_max (l : List Nat) (x : Nat) (h : x ∈ l) : x ≤ l.foldr max 0 := by
  induction l with
  | nil => cases h
  | cons a rest ih =>
    rcases List.mem_cons.mp h with rfl | hx
    · exact le_max_left _ _
    · exact le_trans (ih hx) (le_max_right _ _)

/-- The re-derived route key is never a registered key. -/
theorem deriveRouteKey_fresh (urls : List (String × String)) (k : String) :
    keyUsed urls (deriveRouteKey urls k) = false := by
  refine deriveRouteKeyAux_fresh urls (routeKeyFuel urls) k (fun e he => ?_)
  have h1 : e.1.length ≤ (urls.map (fun x => x.1.length)).foldr max 0 :=
    mem_le_foldr_max _ _ (List.mem_map_of_mem _ he)
  unfold routeKeyFuel
  omega

/-- String append acts as list append on the character data. -/
theorem string_data_append (s t : String) : (s ++ t).data = s.data ++ t.data := rfl

/-- Temporary png and svg paths never coincide. -/
theorem mkTempPath_png_ne_svg (a b : Nat) : mkTempPath a ".png" ≠ mkTempPath b ".svg" := by
  intro h
  unfold mkTempPath at h
  have hd : ("/tmp/" ++ toString a).data ++ (".png" : String).data =
      ("/tmp/" ++ toString b).data ++ (".svg" : String).data := by
    have h1 := congrArg String.data h
    rw [string_data_append, string_data_append] at h1
    exact h1
  have hlen : (".png" : String).data.length = (".svg" : String).data.length := by decide
  have h2 := (List.append_inj' hd hlen).2
  exact absurd h2 (by decide)

/-- Updating the data object keeps the access path intact. -/
theorem eventData_setEventData (e : KernelEvent) (d0 d : EventData)
    (h : eventData e = some d0) : eventData (setEventData e d) = some d := by
  rcases e with ⟨_ | r⟩
  · simp [eventData] at h
  · rcases r with ⟨mt, _ | c⟩
    · simp [eventData] at h
    · simp [eventData, setEventData]

/-- A key below a strict bound on all table keys is absent. -/
theorem alookup_none_of_lt (l : List (Nat × PromiseState)) (n : Nat)
    (h : ∀ kv ∈ l, kv.1 < n) : alookup l n = none := by
  induction l with
  | nil => rfl
  | cons kv rest ih =>
    have hne : kv.1 ≠ n := Nat.ne_of_lt (h kv (List.mem_cons_self kv rest))
    simp only [alookup, if_neg hne]
    exact ih (fun x hx => h x (List.mem_cons_of_mem kv hx))

/-- A property with a disallowed key ends up among the banned properties. -/
theorem bannedProperties_mem (validOptions : List (String × OptionDefinition)) (obj : JsObject)
    (kv : String × JsValue) (hm : kv ∈ obj) (hb : keyAllowed validOptions kv.1 = false) :
    kv ∈ bannedProperties validOptions obj := by
  induction obj with
  | nil => cases hm
  | cons a rest ih =>
    rcases List.mem_cons.mp hm with rfl | hx
    · simp [bannedProperties, hb]
    · by_cases ha : keyAllowed validOptions a.1 = true
      · simp only [bannedProperties, ha, if_true]
        exact ih hx
      · have ha2 : keyAllowed validOptions a.1 = false := by simpa using ha
        simp only [bannedProperties, ha2, Bool.false_eq_true, if_false]
        exact List.mem_cons_of_mem a (ih hx)

/-- An event that resolves a png field carries a data object holding it. -/
theorem pngField_inv (e : KernelEvent) (v : FieldVal) (hp : pngField e = some v) :
    ∃ d, eventData e = some d ∧ d.imagePng = some v := by
  unfold pngField at hp
  rcases hd : eventData e with _ | d
  · rw [hd] at hp; simp at hp
  · rw [hd] at hp
    exact ⟨d, rfl, hp⟩

/-- Zeta-expanded form of `transformData`. -/
theorem transformData_eq (ps : PlotState) (e : KernelEvent) (d : EventData) :
    transformData ps e d =
      (setEventData e
        ⟨(replacePropertyWithTemporaryFile ".png" (htmlStepState ps d)
            (decodePngStep d).imagePng).1,
         (replacePropertyWithTemporaryFile ".html" ps (decodePngStep d).textHtml).1,
         (replacePropertyWithTemporaryFile ".svg"
           (replacePropertyWithTemporaryFile ".png" (htmlStepState ps d)
             (decodePngStep d).imagePng).2
           (decodePngStep d).imageSvg).1,
         (decodePngStep d).rest⟩,
       (replacePropertyWithTemporaryFile ".svg"
         (replacePropertyWithTemporaryFile ".png" (htmlStepState ps d)
           (decodePngStep d).imagePng).2
         (decodePngStep d).imageSvg).2) := rfl

/-- The decode step never touches the `text/html` field. -/
theorem decodePngStep_textHtml (d : EventData) : (decodePngStep d).textHtml = d.textHtml := by
  unfold decodePngStep; split <;> rfl

/-- The decode step never touches the `image/svg` field. -/
theorem decodePngStep_imageSvg (d : EventData) : (decodePngStep d).imageSvg = d.imageSvg := by
  unfold decodePngStep; split <;> rfl

/-- The decode step leaves an absent `image/png` field absent. -/
theorem decodePngStep_imagePng_none (d : EventData) (h : d.imagePng = none) :
    (decodePngStep d).imagePng = none := by
  simp [decodePngStep, fieldTruthy, h]

/-- The decode step turns a non-empty string `image/png` field into its
decoded bytes. -/
theorem decodePngStep_str (d : EventData) (s : String)
    (h : d.imagePng = some (.str s)) (hs : s ≠ "") :
    (decodePngStep d).imagePng = some (.buf (base64Decode s)) := by
  unfold decodePngStep
  rw [h]
  simp [fieldTruthy, fieldTruthyVal, hs, bufferFromBase64]

/-- The replacement step on an absent field is the identity. -/
theorem replaceProp_none (ext : String) (ps : PlotState) :
    replacePropertyWithTemporaryFile ext ps none = (none, ps) := rfl

/-- The replacement step on a buffer field persists the bytes, registers the
route and rewrites the field. -/
theorem replaceProp_buf (ext : String) (ps : PlotState) (bytes : List Nat) :
    replacePropertyWithTemporaryFile ext ps (some (.buf bytes)) =
      (some (.str (deriveRouteKey ps.urls
          ("/" ++ lastPathComponent (mkTempPath ps.nextTempId ext)))),
       ⟨ps.nextTempId + 1,
        (mkTempPath ps.nextTempId ext, bytes) :: ps.tempFiles,
        (deriveRouteKey ps.urls ("/" ++ lastPathComponent (mkTempPath ps.nextTempId ext)),
          mkTempPath ps.nextTempId ext) :: ps.urls⟩) := rfl

/-- The replacement step on a truthy field, written out. -/
theorem replaceProp_truthy (ext : String) (ps : PlotState) (fv : FieldVal)
    (ht : fieldTruthyVal fv = true) :
    replacePropertyWithTemporaryFile ext ps (some fv) =
      (some (.str (deriveRouteKey ps.urls
          ("/" ++ lastPathComponent (mkTempPath ps.nextTempId ext)))),
       ⟨ps.nextTempId + 1,
        (mkTempPath ps.nextTempId ext, fieldBytes fv) :: ps.tempFiles,
        (deriveRouteKey ps.urls ("/" ++ lastPathComponent (mkTempPath ps.nextTempId ext)),
          mkTempPath ps.nextTempId ext) :: ps.urls⟩) := by
  simp only [replacePropertyWithTemporaryFile]
  rw [if_pos ht]
  rfl

/-- The replacement step on a falsy field is the identity. -/
theorem replaceProp_falsy (ext : String) (ps : PlotState) (fv : FieldVal)
    (ht : fieldTruthyVal fv = false) :
    replacePropertyWithTemporaryFile ext ps (some fv) = (some fv, ps) := by
  simp only [replacePropertyWithTemporaryFile]
  rw [if_neg (by simp [ht])]

/-- The replacement step preserves registered routes (it never overwrites). -/
theorem alookup_urls_replaceProp (ext : String) (ps : PlotState) (v : Option FieldVal)
    (r fp : String) (hr : alookup ps.urls r = some fp) :
    alookup (replacePropertyWithTemporaryFile ext ps v).2.urls r = some fp := by
  rcases v with _ | fv
  · exact hr
  · by_cases ht : fieldTruthyVal fv = true
    · have hused : keyUsed ps.urls r = true := keyUsed_of_alookup _ _ _ hr
      have hfresh := deriveRouteKey_fresh ps.urls
        ("/" ++ lastPathComponent (mkTempPath ps.nextTempId ext))
      have hne : deriveRouteKey ps.urls
          ("/" ++ lastPathComponent (mkTempPath ps.nextTempId ext)) ≠ r := by
        intro he
        rw [he, hused] at hfresh
        cases hfresh
      rw [replaceProp_truthy ext ps fv ht]
      simp only [alookup]
      rw [if_neg hne]
      exact hr
    · have ht2 : fieldTruthyVal fv = false := by simpa using ht
      rw [replaceProp_falsy ext ps fv ht2]
      exact hr

/-- The svg replacement step preserves the record of a png temporary file. -/
theorem alookup_tempFiles_replaceProp_svg (ps : PlotState) (v : Option FieldVal)
    (a : Nat) (bytes : List Nat)
    (hr : alookup ps.tempFiles (mkTempPath a ".png") = some bytes) :
    alookup (replacePropertyWithTemporaryFile ".svg" ps v).2.tempFiles
      (mkTempPath a ".png") = some bytes := by
  rcases v with _ | fv
  · exact hr
  · by_cases ht : fieldTruthyVal fv = true
    · have hne : mkTempPath ps.nextTempId ".svg" ≠ mkTempPath a ".png" :=
        fun he => mkTempPath_png_ne_svg a ps.nextTempId he.symm
      rw [replaceProp_truthy ".svg" ps fv ht]
      simp only [alookup]
      rw [if_neg hne]
      exact hr
    · have ht2 : fieldTruthyVal fv = false := by simpa using ht
      rw [replaceProp_falsy ".svg" ps fv ht2]
      exact hr

/-- The replacement step keeps every used key used. -/
theorem keyUsed_replaceProp (ext : String) (ps : PlotState) (v : Option FieldVal)
    (k : String) (h : keyUsed ps.urls k = true) :
    keyUsed (replacePropertyWithTemporaryFile ext ps v).2.urls k = true := by
  rcases v with _ | fv
  · exact h
  · by_cases ht : fieldTruthyVal fv = true
    · rw [replaceProp_truthy ext ps fv ht]
      simp only [keyUsed]
      split
      · rfl
      · exact h
    · have ht2 : fieldTruthyVal fv = false := by simpa using ht
      rw [replaceProp_falsy ext ps fv ht2]
      exact h

/-- Workhorse equation: the transform of a display-data event whose
`image/png` field holds a non-empty string. -/
theorem displayDataTransform_png_str (ps : PlotState) (e : KernelEvent) (d : EventData)
    (s : String) (hd : eventData e = some d) (hm : eventMsgType e = some "display_data")
    (hpng : d.imagePng = some (.str s)) (hs : s ≠ "") :
    displayDataTransform ps e =
      (setEventData e
        ⟨some (.str (pngRouteKey ps d)),
         (replacePropertyWithTemporaryFile ".html" ps (decodePngStep d).textHtml).1,
         (replacePropertyWithTemporaryFile ".svg" (pngSavedState ps d s)
           (decodePngStep d).imageSvg).1,
         (decodePngStep d).rest⟩,
       (replacePropertyWithTemporaryFile ".svg" (pngSavedState ps d s)
         (decodePngStep d).imageSvg).2) := by
  have h1 : displayDataTransform ps e = transformData ps e d := by
    simp only [displayDataTransform, hd]
    rw [if_pos hm]
  rw [h1, transformData_eq]
  rw [decodePngStep_str d s hpng hs]
  rw [replaceProp_buf]
  rfl

/-! ## Claim theorems -/

/-- C1: the claim states that for the options object `{}` (missing the
required `cmd`), `onCreateKernelInstance` and `onCheckKernel` fail with an
`InvalidArgument` error synchronously, before any subprocess is spawned and
before any session-table entry is inserted. The code contradicts this: the
call sites pass `isRequired: true` while `assertValidObject` reads
`definition.required`, so the missing-`cmd` check never fires. This theorem
evaluates the embedded code at the failing input `{}`: validation succeeds,
the interpreter probe is invoked, and session creation returns an id and
inserts a (pending) entry into the table. -/
theorem c1_empty_options_accepted :
    assertValidObject [] kernelOptionsValidation = .ok () ∧
    onCheckKernel [] = .ok (.invoked []) ∧
    onCreateKernelInstance [] (.fails (.error "spawn failure")) emptyManagerState =
      (.ok 0, createdFailingState) ∧
    alookup createdFailingState.kernelClients 0 = some (.pending none) :=
  ⟨rfl, rfl, rfl, rfl⟩

/-- C2 counterexample: the claim states that `onKillKernelInstance` removes
the session entry from the table once the kill resolves or rejects, even when
the kill fails. At the concrete table holding session 0 whose client kill
rejects, the kill settles with the failure and the entry is still
present afterwards: the function returns the state unchanged. -/
theorem c2_failed_kill_leaves_entry :
    onKillKernelInstance 0 failingKillState =
      (.ok (.failed (.error "kill failed")), failingKillState) ∧
    alookup failingKillState.kernelClients 0 = some (.resolved failingKillClient) :=
  ⟨rfl, rfl⟩

/-- C2 (amended): for every session id present in the table,
`onKillKernelInstance` waits on the readiness promise (if still pending),
then issues `kill()` on the client — but it leaves the session table
unchanged; the entry is removed only by the close event handler of the client
(when the subprocess actually closes), so a failing kill leaves the entry in
the table. -/
theorem c2_kill_forwards_and_leaves_table (st : ManagerState) (id : Nat) (p : PromiseState)
    (h : alookup st.kernelClients id = some p) :
    onKillKernelInstance id st = (.ok (killOutcomeOf p), st) ∧
    alookup (onClientCloseEvent id st).kernelClients id = none := by
  constructor
  · unfold onKillKernelInstance
    rw [h]
  · exact alookup_removeKey_self st.kernelClients id

/-- C2 witness: the amended theorem at the concrete table holding session 0
with a failing kill. -/
theorem c2_kill_forwards_witness :
    onKillKernelInstance 0 failingKillState =
      (.ok (killOutcomeOf (.resolved failingKillClient)), failingKillState) ∧
    alookup (onClientCloseEvent 0 failingKillState).kernelClients 0 = none :=
  c2_kill_forwards_and_leaves_table failingKillState 0 (.resolved failingKillClient) rfl

/-- C3 counterexample: the claim states that when client construction rejects,
the entry is removed and every caller awaiting the readiness future receives
the failure. At the concrete run creating a session whose construction fails,
the entry is indeed stored and then removed, but the readiness promise never
settles (`settles` is `none`), so no awaiting caller ever receives the
failure — refuting the second conjunct of the claim. -/
theorem c3_failure_future_never_settles :
    onCreateKernelInstance pythonOptions (.fails (.error "boom")) emptyManagerState =
      (.ok 0, createdFailingState) ∧
    alookup createdFailingState.kernelClients 0 = some (.pending none) ∧
    alookup (constructionFailureStep 0 createdFailingState).kernelClients 0 = none ∧
    settles (PromiseState.pending none) = none :=
  ⟨rfl, rfl, rfl, rfl⟩

/-- C3 (amended): whenever asynchronous client construction rejects after a
creation, the session entry is removed from the table immediately by the
`catch` handler, but the readiness promise never settles (the promise
executor only receives a resolve callback and the `catch` does not reject),
so callers awaiting it wait forever and never receive the construction
failure. -/
theorem c3_construction_failure_removes_entry (options : JsObject) (e : JsError)
    (st : ManagerState) (id : Nat) (st2 : ManagerState)
    (h : onCreateKernelInstance options (.fails e) st = (.ok id, st2)) :
    alookup st2.kernelClients id = some (.pending none) ∧
    alookup (constructionFailureStep id st2).kernelClients id = none ∧
    settles (PromiseState.pending none) = none := by
  unfold onCreateKernelInstance at h
  cases hv : assertValidObject options kernelOptionsValidation with
  | error e2 =>
    rw [hv] at h
    simp at h
  | ok u =>
    rw [hv] at h
    simp only [Prod.mk.injEq, Except.ok.injEq] at h
    obtain ⟨h1, h2⟩ := h
    subst h1
    subst h2
    refine ⟨?_, ?_, rfl⟩
    · simp [alookup, fateEventual]
    · exact alookup_removeKey_self _ _
  
/-- C3 witness: the amended theorem at the concrete failed creation. -/
theorem c3_construction_failure_witness :
    alookup createdFailingState.kernelClients 0 = some (.pending none) ∧
    alookup (constructionFailureStep 0 createdFailingState).kernelClients 0 = none ∧
    settles (PromiseState.pending none) = none :=
  c3_construction_failure_removes_entry pythonOptions (.error "boom") emptyManagerState 0
    createdFailingState rfl

/-- C4 counterexample: the claim states that for every id not in the table,
every per-session operation fails with a `NotFound` error. For the unknown
id 0 and the empty text, `onExecuteWithKernel` fails with its missing-text
error instead, because the text check precedes the id lookup. -/
theorem c4_execute_empty_text_not_notfound :
    onExecuteWithKernel ⟨0⟩ "" emptyManagerState =
      (.error (.error "Missing text to execute"), emptyManagerState) ∧
    alookup emptyManagerState.kernelClients 0 = none ∧
    JsError.error "Missing text to execute" ≠ notFoundError 0 :=
  ⟨rfl, rfl, by decide⟩

/-- C4 (amended): for every id not present in the session table, every
per-session operation fails synchronously with its not-found error and
returns the table unchanged — except that `onExecuteWithKernel` checks the
text first, so its not-found failure is guaranteed only for non-empty text
(with empty text it fails with the missing-text error instead). -/
theorem c4_unknown_id_fails_notfound (st : ManagerState) (id : Nat)
    (text code resolveEvent itext qtext etext : String) (cursorPos ipos : Nat)
    (h : alookup st.kernelClients id = none) (htext : text ≠ "") :
    onExecuteWithKernel ⟨id⟩ text st = (.error (notFoundError id), st) ∧
    onExecuteHidden ⟨id⟩ code resolveEvent st = (.error (notFoundError id), st) ∧
    onGetAutoComplete ⟨id⟩ itext cursorPos st = (.error (notFoundError id), st) ∧
    onIsComplete ⟨id⟩ qtext st = (.error (notFoundError id), st) ∧
    onGetInspection ⟨id⟩ itext ipos st = (.error (notFoundError id), st) ∧
    onGetStatus ⟨id⟩ st = (.error (notFoundError id), st) ∧
    onInterrupt ⟨id⟩ st = (.error (notFoundError id), st) ∧
    onEval ⟨id⟩ etext st = (.error (notFoundError id), st) ∧
    onKillKernelInstance id st = (.error (.error "Kernel with that id does not exist."), st) := by
  have hg : getKernelInstanceById id st = .error (notFoundError id) := by
    unfold getKernelInstanceById
    rw [h]
  refine ⟨?_, ?_, ?_, ?_, ?_, ?_, ?_, ?_, ?_⟩
  · unfold onExecuteWithKernel
    rw [if_neg htext, hg]
  · unfold onExecuteHidden
    rw [hg]
  · unfold onGetAutoComplete
    rw [hg]
  · unfold onIsComplete
    rw [hg]
  · unfold onGetInspection
    rw [hg]
  · unfold onGetStatus
    rw [hg]
  · unfold onInterrupt
    rw [hg]
  · unfold onEval
    rw [hg]
  · unfold onKillKernelInstance
    rw [h]

/-- C4 witness: the amended theorem at the empty table and the unknown id 7. -/
theorem c4_unknown_id_witness :
    onExecuteWithKernel ⟨7⟩ "1+1" emptyManagerState =
      (.error (notFoundError 7), emptyManagerState) ∧
    onExecuteHidden ⟨7⟩ "x" "ev" emptyManagerState =
      (.error (notFoundError 7), emptyManagerState) ∧
    onGetAutoComplete ⟨7⟩ "pri" 3 emptyManagerState =
      (.error (notFoundError 7), emptyManagerState) ∧
    onIsComplete ⟨7⟩ "q" emptyManagerState = (.error (notFoundError 7), emptyManagerState) ∧
    onGetInspection ⟨7⟩ "pri" 0 emptyManagerState =
      (.error (notFoundError 7), emptyManagerState) ∧
    onGetStatus ⟨7⟩ emptyManagerState = (.error (notFoundError 7), emptyManagerState) ∧
    onInterrupt ⟨7⟩ emptyManagerState = (.error (notFoundError 7), emptyManagerState) ∧
    onEval ⟨7⟩ "e" emptyManagerState = (.error (notFoundError 7), emptyManagerState) ∧
    onKillKernelInstance 7 emptyManagerState =
      (.error (.error "Kernel with that id does not exist."), emptyManagerState) :=
  c4_unknown_id_fails_notfound emptyManagerState 7 "1+1" "x" "ev" "pri" "q" "e" 3 0 rfl
    (by decide)

/-- C5: for every registered session whose client never responds to an
autocomplete request, `onGetAutoComplete` fails with the timeout error after
`autoCompleteTimeout * second = 5000` milliseconds, in a single attempt with
no retry, and returns the table unchanged — the session entry remains
registered afterwards. -/
theorem c5_autocomplete_times_out (st : ManagerState) (options : ExecOptions)
    (text : String) (cursorPos : Nat) (p : PromiseState)
    (hp : alookup st.kernelClients options.instanceId = some p)
    (hnever : ∀ tr c, awaitTimed p = some (tr, c) →
      c.autoCompleteReply text cursorPos = none) :
    onGetAutoComplete options text cursorPos st =
      (.ok (.settled (autoCompleteTimeout * second)
        (.error (.error "AutoComplete failed to finish in 5 seconds"))), st) ∧
    autoCompleteTimeout * second = 5000 ∧
    alookup st.kernelClients options.instanceId = some p := by
  have hg : getKernelInstanceById options.instanceId st = .ok p := by
    unfold getKernelInstanceById
    rw [hp]
  have hchain : clientChain p (fun c => c.autoCompleteReply text cursorPos) = .never := by
    unfold clientChain
    rcases hw : awaitTimed p with _ | ⟨tr, c⟩
    · rfl
    · have hr := hnever tr c hw
      simp [hr]
  refine ⟨?_, rfl, hp⟩
  simp only [onGetAutoComplete, hg]
  rw [hchain]
  rfl

/-- C5 witness: the theorem at the concrete table holding session 0 whose
client never answers autocomplete requests. -/
theorem c5_autocomplete_times_out_witness :
    onGetAutoComplete ⟨0⟩ "pri" 3 neverAutoCompleteState =
      (.ok (.settled (autoCompleteTimeout * second)
        (.error (.error "AutoComplete failed to finish in 5 seconds"))),
       neverAutoCompleteState) ∧
    autoCompleteTimeout * second = 5000 ∧
    alookup neverAutoCompleteState.kernelClients 0 =
      some (.resolved neverAutoCompleteClient) :=
  c5_autocomplete_times_out neverAutoCompleteState ⟨0⟩ "pri" 3
    (.resolved neverAutoCompleteClient) rfl
    (fun tr c hw => by
      injection hw with h1
      injection h1 with h2 h3
      rw [← h3]
      rfl)

/-- C6 counterexample: the claim states that applying the transform twice to
the same event equals applying it once (a field already rewritten to a route
key is never rewritten again). Transforming the concrete png event once
rewrites the field to the route key `/0.png`; transforming the resulting
event again rewrites the field once more, to the fresh route key `/1.png` —
so the second application changes the field again. -/
theorem c6_transform_not_idempotent :
    displayDataTransform emptyPlotState pngDataEvent = (routedPngEvent, routedPlotState) ∧
    pngField routedPngEvent = some (.str "/0.png") ∧
    pngField (displayDataTransform routedPlotState routedPngEvent).1 =
      some (.str "/1.png") ∧
    (some (FieldVal.str "/1.png") : Option FieldVal) ≠ some (.str "/0.png") :=
  ⟨by decide, by decide, by decide, by decide⟩

/-- C6 (amended): the transform is not idempotent per field — for every
display-data event whose `image/png` field holds a non-empty string that is
already a registered route key, the transform treats it as fresh payload (a
route string is truthy) and rewrites the field again, to a route key
different from the one it held. -/
theorem c6_registered_route_rewritten (ps : PlotState) (e : KernelEvent) (s : String)
    (hm : eventMsgType e = some "display_data")
    (hp : pngField e = some (.str s)) (hs : s ≠ "")
    (hroute : keyUsed ps.urls s = true) :
    ∃ r, pngField (displayDataTransform ps e).1 = some (.str r) ∧ r ≠ s := by
  obtain ⟨d, hd, hpng⟩ := pngField_inv e (.str s) hp
  rw [displayDataTransform_png_str ps e d s hd hm hpng hs]
  refine ⟨pngRouteKey ps d, ?_, ?_⟩
  · unfold pngField
    rw [eventData_setEventData e d _ hd]
    rfl
  · have h1 : keyUsed (htmlStepState ps d).urls s = true :=
      keyUsed_replaceProp ".html" ps (decodePngStep d).textHtml s hroute
    have h2 : keyUsed (htmlStepState ps d).urls (pngRouteKey ps d) = false :=
      deriveRouteKey_fresh (htmlStepState ps d).urls
        ("/" ++ lastPathComponent (pngFilePath ps d))
    intro he
    rw [he, h1] at h2
    cases h2

/-- C6 witness: the amended theorem at the already-transformed event whose
`image/png` field holds the registered route key `/0.png`. -/
theorem c6_registered_route_rewritten_witness :
    (∃ r, pngField (displayDataTransform routedPlotState routedPngEvent).1 =
        some (.str r) ∧ r ≠ "/0.png") ∧
    keyUsed routedPlotState.urls "/0.png" = true :=
  ⟨c6_registered_route_rewritten routedPlotState routedPngEvent "/0.png" rfl rfl
      (by decide) (by decide),
   by decide⟩

/-- C7: every event that is not a display-data event, or carries no data
object, passes through the transform completely unchanged (event and
artifact state); and for any event, a recognized field (`image/png`,
`text/html`, `image/svg`) absent from the original is still absent from the
transformed event — no field is fabricated. -/
theorem c7_passthrough_and_no_field_added (ps : PlotState) (e : KernelEvent) :
    ((eventMsgType e ≠ some "display_data" ∨ eventData e = none) →
      displayDataTransform ps e = (e, ps)) ∧
    (pngField e = none → pngField (displayDataTransform ps e).1 = none) ∧
    (htmlField e = none → htmlField (displayDataTransform ps e).1 = none) ∧
    (svgField e = none → svgField (displayDataTransform ps e).1 = none) := by
  rcases hd : eventData e with _ | d
  · have hu : displayDataTransform ps e = (e, ps) := by
      unfold displayDataTransform
      rw [hd]
    refine ⟨fun _ => hu, ?_, ?_, ?_⟩ <;> intro hfield <;> rw [hu] <;> exact hfield
  · by_cases hm : eventMsgType e = some "display_data"
    · have ht : displayDataTransform ps e = transformData ps e d := by
        simp only [displayDataTransform, hd]
        rw [if_pos hm]
      refine ⟨?_, ?_, ?_, ?_⟩
      · intro hor
        rcases hor with hm2 | hd2
        · exact absurd hm hm2
        · simp at hd2
      · intro hfield
        unfold pngField at hfield
        rw [hd] at hfield
        have hpng : d.imagePng = none := hfield
        rw [ht, transformData_eq]
        unfold pngField
        rw [eventData_setEventData e d _ hd]
        simp only [Option.some_bind]
        rw [decodePngStep_imagePng_none d hpng, replaceProp_none]
      · intro hfield
        unfold htmlField at hfield
        rw [hd] at hfield
        have hhtml : d.textHtml = none := hfield
        rw [ht, transformData_eq]
        unfold htmlField
        rw [eventData_setEventData e d _ hd]
        simp only [Option.some_bind]
        rw [decodePngStep_textHtml, hhtml, replaceProp_none]
      · intro hfield
        unfold svgField at hfield
        rw [hd] at hfield
        have hsvg : d.imageSvg = none := hfield
        rw [ht, transformData_eq]
        unfold svgField
        rw [eventData_setEventData e d _ hd]
        simp only [Option.some_bind]
        rw [decodePngStep_imageSvg, hsvg, replaceProp_none]
    · have hu : displayDataTransform ps e = (e, ps) := by
        simp only [displayDataTransform, hd]
        rw [if_neg hm]
      refine ⟨fun _ => hu, ?_, ?_, ?_⟩ <;> intro hfield <;> rw [hu] <;> exact hfield

/-- C7 witness: the theorem at a non-display event (passes through unchanged)
whose recognized fields are absent (none is added). -/
theorem c7_passthrough_witness :
    displayDataTransform emptyPlotState executeResultEvent =
      (executeResultEvent, emptyPlotState) ∧
    pngField (displayDataTransform emptyPlotState executeResultEvent).1 = none ∧
    htmlField (displayDataTransform emptyPlotState executeResultEvent).1 = none ∧
    svgField (displayDataTransform emptyPlotState executeResultEvent).1 = none :=
  ⟨(c7_passthrough_and_no_field_added emptyPlotState executeResultEvent).1
      (Or.inl (by decide)),
   (c7_passthrough_and_no_field_added emptyPlotState executeResultEvent).2.1 (by decide),
   (c7_passthrough_and_no_field_added emptyPlotState executeResultEvent).2.2.1 (by decide),
   (c7_passthrough_and_no_field_added emptyPlotState executeResultEvent).2.2.2 (by decide)⟩

/-- C8: for every display-data event whose `image/png` field holds a
non-empty base64 string, the transform decodes the field from base64 into
raw bytes, persists the bytes to a temporary file, and replaces the field
with a route key; resolving that route key through the route table yields a
file whose recorded bytes equal the decoded original. -/
theorem c8_png_decoded_persisted_resolvable (ps : PlotState) (e : KernelEvent)
    (s : String) (hm : eventMsgType e = some "display_data")
    (hp : pngField e = some (.str s)) (hs : s ≠ "") :
    ∃ r fp, pngField (displayDataTransform ps e).1 = some (.str r) ∧
      alookup (displayDataTransform ps e).2.urls r = some fp ∧
      alookup (displayDataTransform ps e).2.tempFiles fp = some (base64Decode s) := by
  obtain ⟨d, hd, hpng⟩ := pngField_inv e (.str s) hp
  rw [displayDataTransform_png_str ps e d s hd hm hpng hs]
  refine ⟨pngRouteKey ps d, pngFilePath ps d, ?_, ?_, ?_⟩
  · unfold pngField
    rw [eventData_setEventData e d _ hd]
    rfl
  · apply alookup_urls_replaceProp
    simp [pngSavedState, alookup]
  · have hgoal : alookup (pngSavedState ps d s).tempFiles
        (mkTempPath (htmlStepState ps d).nextTempId ".png") = some (base64Decode s) := by
      simp [pngSavedState, pngFilePath, alookup]
    exact alookup_tempFiles_replaceProp_svg (pngSavedState ps d s)
      (decodePngStep d).imageSvg (htmlStepState ps d).nextTempId (base64Decode s) hgoal

/-- C8 witness: the theorem at the concrete png event whose field holds
`"AQID"`, whose base64 decoding is the byte list 1, 2, 3. -/
theorem c8_png_decoded_witness :
    (∃ r fp, pngField (displayDataTransform emptyPlotState pngDataEvent).1 =
        some (.str r) ∧
      alookup (displayDataTransform emptyPlotState pngDataEvent).2.urls r = some fp ∧
      alookup (displayDataTransform emptyPlotState pngDataEvent).2.tempFiles fp =
        some (base64Decode "AQID")) ∧
    base64Decode "AQID" = [1, 2, 3] :=
  ⟨c8_png_decoded_persisted_resolvable emptyPlotState pngDataEvent "AQID" rfl rfl
      (by decide),
   by decide⟩

/-- C9: for every creation options object accepted by the validation, and
every state whose table keys are below the id generator,
`onCreateKernelInstance` returns the fresh id `st.nextCuid` immediately (an
id not yet present in the table) and registers it with a still-pending
readiness promise — before any client exists — so a kill request issued
immediately afterwards finds the entry and chains onto the readiness promise
instead of failing with a lookup miss. -/
theorem c9_create_registers_before_ready (options : JsObject) (fate : ConstructionFate)
    (st : ManagerState)
    (hv : assertValidObject options kernelOptionsValidation = .ok ())
    (hf : FreshTable st) :
    alookup st.kernelClients st.nextCuid = none ∧
    onCreateKernelInstance options fate st =
      (.ok st.nextCuid,
       ⟨(st.nextCuid, PromiseState.pending (fateEventual fate)) :: st.kernelClients,
        st.nextCuid + 1⟩) ∧
    alookup ((st.nextCuid, PromiseState.pending (fateEventual fate)) :: st.kernelClients)
      st.nextCuid = some (.pending (fateEventual fate)) ∧
    onKillKernelInstance st.nextCuid
      ⟨(st.nextCuid, PromiseState.pending (fateEventual fate)) :: st.kernelClients,
       st.nextCuid + 1⟩ =
      (.ok (killOutcomeOf (.pending (fateEventual fate))),
       ⟨(st.nextCuid, PromiseState.pending (fateEventual fate)) :: st.kernelClients,
        st.nextCuid + 1⟩) := by
  refine ⟨alookup_none_of_lt st.kernelClients st.nextCuid hf, ?_, ?_, ?_⟩
  · unfold onCreateKernelInstance
    rw [hv]
  · simp [alookup]
  · simp [onKillKernelInstance, alookup]

/-- C9 witness: the theorem at the empty state with the options
`{cmd: "python3"}` and a construction that becomes ready. -/
theorem c9_create_registers_witness :
    alookup emptyManagerState.kernelClients 0 = none ∧
    onCreateKernelInstance pythonOptions (.becomesReady 10 trivialClient)
      emptyManagerState =
      (.ok 0, ⟨[(0, PromiseState.pending (some (10, trivialClient)))], 1⟩) ∧
    alookup [(0, PromiseState.pending (some (10, trivialClient)))] 0 =
      some (.pending (some (10, trivialClient))) ∧
    onKillKernelInstance 0 ⟨[(0, PromiseState.pending (some (10, trivialClient)))], 1⟩ =
      (.ok (killOutcomeOf (.pending (some (10, trivialClient)))),
       ⟨[(0, PromiseState.pending (some (10, trivialClient)))], 1⟩) :=
  c9_create_registers_before_ready pythonOptions (.becomesReady 10 trivialClient)
    emptyManagerState rfl (fun _ h => nomatch h)

/-- C10: for every options object holding a property other than `cmd` and
`cwd`, both `onCreateKernelInstance` and `onCheckKernel` throw synchronously
the error naming the disallowed properties, before any subprocess is spawned
and before any session-table entry is inserted: creation returns the error
with the state unchanged, the check returns the error without invoking the
probe, and the offending key is among the named banned properties. -/
theorem c10_disallowed_property_rejected (options : JsObject) (st : ManagerState)
    (fate : ConstructionFate) (k : String) (v : JsValue)
    (hm : (k, v) ∈ options) (h1 : k ≠ "cmd") (h2 : k ≠ "cwd") :
    onCreateKernelInstance options fate st =
      (.error (.error (bannedMessage kernelOptionsValidation options)), st) ∧
    onCheckKernel options =
      .error (.error (bannedMessage kernelOptionsValidation options)) ∧
    k ∈ (bannedProperties kernelOptionsValidation options).map (fun kv => kv.1) := by
  have hb : keyAllowed kernelOptionsValidation k = false := by
    simp [kernelOptionsValidation, keyAllowed, Ne.symm h1, Ne.symm h2]
  have hmem : (k, v) ∈ bannedProperties kernelOptionsValidation options :=
    bannedProperties_mem kernelOptionsValidation options (k, v) hm hb
  have hlen : 0 < (bannedProperties kernelOptionsValidation options).length :=
    List.length_pos.mpr (List.ne_nil_of_mem hmem)
  have hav : assertValidObject options kernelOptionsValidation =
      .error (.error (bannedMessage kernelOptionsValidation options)) := by
    unfold assertValidObject
    rw [if_pos hlen]
  refine ⟨?_, ?_, ?_⟩
  · unfold onCreateKernelInstance
    rw [hav]
  · unfold onCheckKernel
    rw [hav]
  · exact List.mem_map_of_mem _ hmem

/-- C10 witness: the theorem at the options object carrying the extra `env`
property, whose rejection message names `env`. -/
theorem c10_disallowed_property_witness :
    (onCreateKernelInstance extraPropOptions (.fails (.error "unused"))
        emptyManagerState =
      (.error (.error (bannedMessage kernelOptionsValidation extraPropOptions)),
       emptyManagerState) ∧
     onCheckKernel extraPropOptions =
      .error (.error (bannedMessage kernelOptionsValidation extraPropOptions)) ∧
     "env" ∈ (bannedProperties kernelOptionsValidation extraPropOptions).map
       (fun kv => kv.1)) ∧
    bannedMessage kernelOptionsValidation extraPropOptions =
      "Properties env are not allowed" :=
  ⟨c10_disallowed_property_rejected extraPropOptions emptyManagerState
      (.fails (.error "unused")) "env" .plainObj (by decide) (by decide) (by decide),
   by decide⟩
